import Mathlib

/-!
Verification development for the GADS task-routing, session-state and
pipeline-execution engine (`src/gads/orchestrator/{router,session,core}.py`
and the pipeline data model in `src/orchestrator/pipeline.py`).

The Python code is shallowly embedded: pure functions become Lean functions,
the stateful orchestrator loops become explicit state passing, and the
external collaborators (agent invocation, the LLM classifier transport, the
human-approval callback, the wall clock) become explicit parameters.
Serialization of a session document to JSON and back is modelled as storing
the session value itself, keyed by id.
-/

namespace Gads

/-! ## String helpers

Python `kw in text` on strings is substring containment; we implement it on
the underlying character lists.  `String.toLower` models Python `.lower()`
for the ASCII keyword tables used by the router.
-/

/-- `startsList needle hay` : does `hay` begin with `needle`? -/
def startsList : List Char → List Char → Bool
  | [], _ => true
  | _ :: _, [] => false
  | a :: as, b :: bs => a == b && startsList as bs

/-- `subList needle hay` : does `needle` occur contiguously inside `hay`?
Models Python `needle in hay` for strings. -/
def subList (needle : List Char) : List Char → Bool
  | [] => startsList needle []
  | b :: bs => startsList needle (b :: bs) || subList needle bs

/-- Python `needle in hay` on strings. -/
def strContains (hay needle : String) : Bool :=
  subList needle.data hay.data

/-- Python `any(kw in text for kw in kws)`. -/
def anyKw (text : String) (kws : List String) : Bool :=
  kws.any (fun kw => strContains text kw)

/-- ASCII lower-casing of one character (what `Char.toLower` does, written
out so that concrete instances reduce in the kernel). -/
def lowerChar (c : Char) : Char :=
  if 65 ≤ c.toNat ∧ c.toNat ≤ 90 then Char.ofNat (c.toNat + 32) else c

/-- Python `text.lower()` for the ASCII texts the router handles. -/
def strLower (s : String) : String := String.mk (s.data.map lowerChar)

/-- Python `text.strip()`: drop whitespace from both ends. -/
def strStrip (s : String) : String :=
  String.mk
    (((s.data.dropWhile Char.isWhitespace).reverse.dropWhile
        Char.isWhitespace).reverse)

/-- A single-quote character, used to reproduce the exact Python error and
status messages such as `Step 'x' failed: ...`. -/
def sq : String := String.singleton (Char.ofNat 39)

/-! ## Router data model (`src/gads/orchestrator/router.py`) -/

/-- `TaskType` enumeration (router.py lines 24–58). -/
inductive TaskType where
  | game_concept
  | system_design
  | architecture
  | creative_direction
  | mechanic_design
  | level_design
  | balancing
  | implement_feature_2d
  | create_scene_2d
  | write_script_2d
  | debug_2d
  | implement_feature_3d
  | create_scene_3d
  | write_script_3d
  | debug_3d
  | visual_style
  | asset_spec
  | prompt_engineering
  | test
  | validate
  | review
  deriving DecidableEq, Repr

/-- The string value of each `TaskType` member (the Python enum values). -/
def TaskType.value : TaskType → String
  | .game_concept => "game_concept"
  | .system_design => "system_design"
  | .architecture => "architecture"
  | .creative_direction => "creative_direction"
  | .mechanic_design => "mechanic_design"
  | .level_design => "level_design"
  | .balancing => "balancing"
  | .implement_feature_2d => "implement_feature_2d"
  | .create_scene_2d => "create_scene_2d"
  | .write_script_2d => "write_script_2d"
  | .debug_2d => "debug_2d"
  | .implement_feature_3d => "implement_feature_3d"
  | .create_scene_3d => "create_scene_3d"
  | .write_script_3d => "write_script_3d"
  | .debug_3d => "debug_3d"
  | .visual_style => "visual_style"
  | .asset_spec => "asset_spec"
  | .prompt_engineering => "prompt_engineering"
  | .test => "test"
  | .validate => "validate"
  | .review => "review"

/-- All members of the `TaskType` enum. -/
def TaskType.members : List TaskType :=
  [.game_concept, .system_design, .architecture, .creative_direction,
   .mechanic_design, .level_design, .balancing,
   .implement_feature_2d, .create_scene_2d, .write_script_2d, .debug_2d,
   .implement_feature_3d, .create_scene_3d, .write_script_3d, .debug_3d,
   .visual_style, .asset_spec, .prompt_engineering,
   .test, .validate, .review]

/-- Python `TaskType(s)`: value lookup in the enum, `none` models the
`ValueError` raised for a string that is not a member value. -/
def TaskType.ofString (s : String) : Option TaskType :=
  TaskType.members.find? (fun t => t.value == s)

/-- `ProjectType` enumeration (router.py lines 61–65). -/
inductive ProjectType where
  | proj2d
  | proj3d
  deriving DecidableEq, Repr

/-! ## Session data model (`src/gads/orchestrator/session.py`)

`datetime` values are abstracted to `Nat` instants; `dict[str, Any]`
specification blobs are modelled as string-keyed association lists (the
router only reads string-valued entries from them).
-/

/-- Metadata bag attached to a message.  The orchestrator only ever stores
the invoking pipeline step name and the response artifacts in it. -/
structure MessageMeta where
  pipeline_step : Option String := none
  artifacts : List (String × String) := []
  deriving DecidableEq, Repr

/-- `Message` (session.py lines 22–29). -/
structure Message where
  role : String
  agent_name : Option String := none
  content : String
  timestamp : Nat := 0
  metadata : MessageMeta := {}
  deriving DecidableEq, Repr

/-- `ProjectState` (session.py lines 32–58). -/
structure ProjectState where
  name : String
  description : String := ""
  godot_version : String := "4.2"
  project_type : String := "2d"
  art_style : String := ""
  game_design_doc : List (String × String) := []
  technical_spec : List (String × String) := []
  art_spec : List (String × String) := []
  scenes : List String := []
  scripts : List String := []
  assets_2d : List String := []
  assets_3d : List String := []
  current_phase : String := "design"
  completed_tasks : List String := []
  pending_tasks : List String := []
  deriving DecidableEq, Repr

/-- Python `d.get(k, "")` over an association-list blob. -/
def blobGet (blob : List (String × String)) (k : String) : String :=
  match blob.lookup k with
  | some v => v
  | none => ""

/-- `Session` (session.py lines 61–75). -/
structure Session where
  id : String
  created_at : Nat := 0
  updated_at : Nat := 0
  project : ProjectState
  history : List Message := []
  truncated_message_count : Nat := 0
  agent_contexts : List (String × List (String × String)) := []
  deriving DecidableEq, Repr

/-- `Session.add_message` (session.py lines 77–93): append a message and
bump `updated_at` to the current instant `now`. -/
def Session.addMessage (s : Session) (now : Nat) (role : String)
    (content : String) (agent_name : Option String := none)
    (metadata : MessageMeta := {}) : Session :=
  { s with
    history := s.history ++
      [{ role := role, agent_name := agent_name, content := content,
         timestamp := now, metadata := metadata }],
    updated_at := now }

/-- Python slice `l[-n:]`.  Note the Python pitfall: for `n = 0` the slice
`l[-0:]` is `l[0:]`, the whole list. -/
def pySliceLast (l : List α) (n : Nat) : List α :=
  if n = 0 then l else l.drop (l.length - n)

/-- `Session.truncate_history` (session.py lines 105–122): returns the
updated session and the reported number of removed messages. -/
def Session.truncateHistory (s : Session) (maxMessages : Nat) :
    Session × Nat :=
  if s.history.length ≤ maxMessages then (s, 0)
  else
    let removeCount := s.history.length - maxMessages
    ({ s with
       history := pySliceLast s.history maxMessages,
       truncated_message_count := s.truncated_message_count + removeCount },
     removeCount)

/-! ## Router logic (`src/gads/orchestrator/router.py`) -/

/-- `RoutingDecision` (router.py lines 68–75).  The context map carried on a
decision holds the pipeline's shared context when routing a step. -/
structure RoutingDecision where
  agent_name : String
  task_type : TaskType
  priority : Int := 0
  requires_human_approval : Bool := false
  deriving DecidableEq, Repr

/-- `AgentRouter.TASK_AGENT_MAP` (router.py lines 135–162).  The Python dict
covers every enum member, so the map is total. -/
def TASK_AGENT_MAP : TaskType → String
  | .game_concept => "architect"
  | .system_design => "architect"
  | .architecture => "architect"
  | .creative_direction => "architect"
  | .mechanic_design => "designer"
  | .level_design => "designer"
  | .balancing => "designer"
  | .implement_feature_2d => "developer_2d"
  | .create_scene_2d => "developer_2d"
  | .write_script_2d => "developer_2d"
  | .debug_2d => "developer_2d"
  | .implement_feature_3d => "developer_3d"
  | .create_scene_3d => "developer_3d"
  | .write_script_3d => "developer_3d"
  | .debug_3d => "developer_3d"
  | .visual_style => "art_director"
  | .asset_spec => "art_director"
  | .prompt_engineering => "art_director"
  | .test => "qa"
  | .validate => "qa"
  | .review => "qa"

/-- `AgentRouter.APPROVAL_REQUIRED` (router.py lines 165–169). -/
def APPROVAL_REQUIRED (t : TaskType) : Bool :=
  t == .game_concept || t == .architecture || t == .visual_style

/-- The `RoutingDecision` produced by a successful `AgentRouter.route` call
(router.py lines 210–215).  The decision's free-form context map (the
shared pipeline context when routing a step) only feeds the agent-context
assembly hidden behind the invocation seam, so it is omitted here. -/
def routeDecision (t : TaskType) : RoutingDecision :=
  { agent_name := TASK_AGENT_MAP t, task_type := t,
    requires_human_approval := APPROVAL_REQUIRED t }

/-- `AgentRouter.route` (router.py lines 195–215), split so the successful
decision is the named value `routeDecision`. -/
def route (registered : List String) (t : TaskType) :
    Except String RoutingDecision :=
  if registered.contains (TASK_AGENT_MAP t) then
    .ok (routeDecision t)
  else
    .error ("Agent not registered: " ++ TASK_AGENT_MAP t)

/-- `AgentRouter.get_project_type` (router.py lines 217–244). -/
def getProjectType (p : ProjectState) : ProjectType :=
  if p.game_design_doc ≠ [] ∧
      strContains (strLower (blobGet p.game_design_doc "project_type")) "3d"
    then .proj3d
  else if p.game_design_doc ≠ [] ∧
      strContains (strLower (blobGet p.game_design_doc "project_type")) "2d"
    then .proj2d
  else if p.technical_spec ≠ [] ∧
      (strContains (strLower (blobGet p.technical_spec "rendering")) "3d" ∨
       strContains (strLower (blobGet p.technical_spec "rendering"))
         "forward+")
    then .proj3d
  else if p.assets_3d ≠ [] then .proj3d
  else .proj2d

/-- `AgentRouter._keyword_fallback` (router.py lines 333–411). -/
def keywordFallback (userInput : String) (session : Session) : TaskType :=
  let l := strLower userInput
  let is3d := getProjectType session.project == ProjectType.proj3d
  if anyKw l ["concept", "idea", "game about", "design a game", "new game"] then
    .game_concept
  else if anyKw l ["architecture", "system design", "structure"] then
    .architecture
  else if anyKw l ["mechanic", "gameplay", "ability", "control"] then
    .mechanic_design
  else if anyKw l ["level", "map", "environment", "world"] then
    .level_design
  else if anyKw l ["balance", "difficulty", "tuning"] then
    .balancing
  else if anyKw l ["3d", "mesh", "camera3d", "characterbody3d"] then
    if anyKw l ["implement", "code", "feature"] then .implement_feature_3d
    else if anyKw l ["scene", "node"] then .create_scene_3d
    else if anyKw l ["script", "gdscript"] then .write_script_3d
    else if anyKw l ["bug", "fix", "debug"] then .debug_3d
    else .implement_feature_3d
  else if anyKw l ["2d", "sprite", "camera2d", "characterbody2d", "tilemap"] then
    if anyKw l ["implement", "code", "feature"] then .implement_feature_2d
    else if anyKw l ["scene", "node"] then .create_scene_2d
    else if anyKw l ["script", "gdscript"] then .write_script_2d
    else if anyKw l ["bug", "fix", "debug"] then .debug_2d
    else .implement_feature_2d
  else if anyKw l ["implement", "code", "create feature", "add feature"] then
    if is3d then .implement_feature_3d else .implement_feature_2d
  else if anyKw l ["scene", "node"] then
    if is3d then .create_scene_3d else .create_scene_2d
  else if anyKw l ["script", "gdscript"] then
    if is3d then .write_script_3d else .write_script_2d
  else if anyKw l ["bug", "fix", "debug", "error"] then
    if is3d then .debug_3d else .debug_2d
  else if anyKw l ["visual", "style", "art direction", "look and feel"] then
    .visual_style
  else if anyKw l ["asset", "sprite", "model", "texture"] then
    .asset_spec
  else if anyKw l ["prompt", "stable diffusion", "generate image"] then
    .prompt_engineering
  else if anyKw l ["test", "verify"] then
    .test
  else if anyKw l ["review", "check", "validate"] then
    .review
  else
    .game_concept

/-- `AgentRouter.classify_request` (router.py lines 246–308), with the
classifier transport abstracted to its outcome `llm`: either the raw text
returned by the model or a transport failure.  A valid label is used, an
invalid label or a transport failure falls back to keyword matching. -/
def classifyRequest (llm : Except String String) (userInput : String)
    (session : Session) : TaskType :=
  match llm with
  | .ok raw =>
      match TaskType.ofString (strLower (strStrip raw)) with
      | some t => t
      | none => keywordFallback userInput session
  | .error _ => keywordFallback userInput session

/-! ## Pipeline data model (`src/orchestrator/pipeline.py`)

The shared pipeline context is a Python `dict[str, Any]`; the orchestrator
only ever stores strings (step outputs, the initial input) and artifact
dictionaries in it, so context values are modelled by `CtxVal`.
-/

/-- A value stored in the shared pipeline context. -/
inductive CtxVal where
  | str (s : String)
  | dict (d : List (String × String))
  deriving DecidableEq, Repr

/-- Python `str(dict)` rendering, used when a step input is an artifacts
dictionary rather than a string. -/
def pyStrOfDict (d : List (String × String)) : String :=
  "\x7b" ++
    String.intercalate ", "
      (d.map (fun p => sq ++ p.1 ++ sq ++ ": " ++ sq ++ p.2 ++ sq)) ++
  "\x7d"

/-- Python `str(v)` on a context value (`str()` on a string is the string). -/
def CtxVal.toPyStr : CtxVal → String
  | .str s => s
  | .dict d => pyStrOfDict d

/-- The shared pipeline context: an insertion-ordered string-keyed map. -/
abbrev Ctx := List (String × CtxVal)

/-- Python `ctx.get(k)` / `k in ctx`. -/
def ctxGet (c : Ctx) (k : String) : Option CtxVal := c.lookup k

/-- Python `ctx[k] = v`: replace the entry in place when the key is present,
append it otherwise (dict insertion-order semantics). -/
def replaceEntry (k : String) (v : CtxVal) (p : String × CtxVal) :
    String × CtxVal :=
  cond (p.1 == k) (k, v) p

/-- Python `ctx[k] = v`: replace the entry in place when the key is present,
append it otherwise (dict insertion-order semantics). -/
def ctxSet (c : Ctx) (k : String) (v : CtxVal) : Ctx :=
  if (c.lookup k).isSome then c.map (replaceEntry k v)
  else c ++ [(k, v)]

/-- `PipelineStatus` (pipeline.py lines 18–26). -/
inductive PipelineStatus where
  | pending
  | running
  | awaiting_approval
  | completed
  | failed
  | cancelled
  deriving DecidableEq, Repr

/-- `PipelineStep` (pipeline.py lines 29–43). -/
structure PipelineStep where
  name : String
  task_type : String
  input_key : Option String := none
  output_key : Option String := none
  condition : Option (Ctx → Bool) := none

/-- `PipelineStep.should_execute` (pipeline.py lines 39–43). -/
def PipelineStep.shouldExecute (step : PipelineStep) (c : Ctx) : Bool :=
  match step.condition with
  | none => true
  | some f => f c

/-- `Pipeline` (pipeline.py lines 57–87): name, description and ordered
steps (`add_step` only appends to `steps`). -/
structure Pipeline where
  name : String
  description : String := ""
  steps : List PipelineStep

/-- `PipelineResult` (pipeline.py lines 46–54). -/
structure PipelineResult where
  status : PipelineStatus
  outputs : Ctx := []
  error : Option String := none
  completed_steps : List String := []
  current_step : Option String := none

/-! ## Agent collaborator boundary (`src/gads/agents/base.py`) -/

/-- `AgentResponse` (base.py lines 69–84), restricted to the fields the
orchestrator reads; token usage and handoff data are never inspected by the
control flow under verification. -/
structure AgentResponse where
  content : String
  agent_name : String
  model : String := ""
  artifacts : List (String × String) := []
  deriving DecidableEq, Repr

/-! ## Orchestrator (`src/gads/orchestrator/core.py`)

External collaborators become parameters of `OrchEnv`:
`registered` is the set of agent names created by the factory and registered
with the router; `invoke agent input` is the outcome of
`agent.execute(input, context, history)` (an `Except.error` models a raised
exception); `approval msg decision` is the human-approval callback;
`llm` is the classifier transport outcome; `maxHistory` is
`settings.max_session_history`; `now` is the wall clock instant.
-/

structure OrchEnv where
  registered : List String
  invoke : String → String → Except String AgentResponse
  approval : String → RoutingDecision → Bool
  llm : Except String String := .error "classifier unavailable"
  maxHistory : Nat := 100
  now : Nat := 0

/-- `SessionManager.save`'s effect on the session object itself
(session.py lines 185–208): history is truncated in place before the
document is written. -/
def mgrTruncate (M : Nat) (s : Session) : Session :=
  (s.truncateHistory M).1

/-- Mutable state threaded through one `run_pipeline` call, together with
the observables the specification talks about: the agent invocations made
(`calls`, in order, as agent-name/input pairs) and the session documents
persisted by `SessionManager.save` (`saved`, in order). -/
structure PipeState where
  ctx : Ctx
  session : Session
  completed : List String
  currentStep : Option String := none
  calls : List (String × String) := []
  saved : List Session := []

/-- Final outcome of `run_pipeline`: the returned `PipelineResult` plus the
final observable state. -/
structure PipeOut where
  result : PipelineResult
  state : PipeState

/-- The approval prompt built for a pipeline step (core.py line 398). -/
def pipelineApprovalMsg (stepName : String) : String :=
  "Pipeline step " ++ sq ++ stepName ++ sq ++ " requires approval. Proceed?"

/-- The `Cancelled` result reason (core.py line 402). -/
def cancelMsg (stepName : String) : String :=
  "Step " ++ sq ++ stepName ++ sq ++ " cancelled by user"

/-- The `Failed` result reason (core.py line 451): the step name wrapping
the text of the raised exception. -/
def failMsg (stepName e : String) : String :=
  "Step " ++ sq ++ stepName ++ sq ++ " failed: " ++ e

/-- `str(ValueError)` text of Python `TaskType(s)` on a non-member value. -/
def invalidTaskMsg (s : String) : String :=
  sq ++ s ++ sq ++ " is not a valid TaskType"

/-- Outcome of one iteration of the `for step in pipeline.steps` loop in
`run_pipeline` (core.py lines 356–453): either the loop continues with an
updated state, or the function returns. -/
inductive StepOut where
  | next (st : PipeState)
  | halt (out : PipeOut)

/-- The `Failed` return taken by the `except` clause (core.py lines
443–453): mark the result failed, keep accumulated `completed_steps`,
persist the session as-is, and return. -/
def haltFailed (env : OrchEnv) (st : PipeState) (stepName e : String) :
    StepOut :=
  let savedSession := mgrTruncate env.maxHistory st.session
  .halt
    { result :=
        { status := .failed, outputs := [],
          error := some (failMsg stepName e),
          completed_steps := st.completed, current_step := some stepName },
      state :=
        { st with session := savedSession,
                  saved := st.saved ++ [savedSession] } }

/-- The step input drawn from the shared context (core.py lines 373–376):
`if step.input_key and step.input_key in context` — a `None` or empty
(Python-falsy) key, or an absent entry, falls back to the reserved
`"user_input"` entry, else the empty string. -/
def stepInputVal (step : PipelineStep) (c : Ctx) : CtxVal :=
  match step.input_key with
  | some k =>
      if k ≠ "" ∧ (ctxGet c k).isSome then (ctxGet c k).getD (.str "")
      else (ctxGet c "user_input").getD (.str "")
  | none => (ctxGet c "user_input").getD (.str "")

/-- The context update performed after a successful step invocation
(core.py lines 416–420): when `output_key` is truthy (not `None`, not
empty), the response content is stored under it and, when artifacts are
attached, the artifacts under the derived `_artifacts` key. -/
def stepOutputCtx (step : PipelineStep) (resp : AgentResponse) (c : Ctx) :
    Ctx :=
  match step.output_key with
  | some k =>
      if k ≠ "" then
        let c' := ctxSet c k (.str resp.content)
        if resp.artifacts ≠ [] then
          ctxSet c' (k ++ "_artifacts") (.dict resp.artifacts)
        else c'
      else c
  | none => c

/-- The agent message recorded on the session after a successful step
invocation (core.py lines 422–428). -/
def stepSessionAfter (env : OrchEnv) (step : PipelineStep)
    (resp : AgentResponse) (s : Session) : Session :=
  s.addMessage env.now "agent" resp.content (some resp.agent_name)
    { pipeline_step := some step.name, artifacts := resp.artifacts }

/-- The agent invocation of one pipeline step (core.py lines 407–441): the
call is recorded, then a raised invocation error takes the `except` path
while a response updates context, session and `completed_steps`. -/
def runStepInvoke (env : OrchEnv) (step : PipelineStep)
    (decision : RoutingDecision) (st : PipeState) : StepOut :=
  match env.invoke decision.agent_name (stepInputVal step st.ctx).toPyStr with
  | .error e =>
      haltFailed env
        { st with calls := st.calls ++
            [(decision.agent_name, (stepInputVal step st.ctx).toPyStr)] }
        step.name e
  | .ok resp =>
      .next { st with
              ctx := stepOutputCtx step resp st.ctx,
              session := stepSessionAfter env step resp st.session,
              completed := st.completed ++ [step.name],
              calls := st.calls ++
                [(decision.agent_name, (stepInputVal step st.ctx).toPyStr)] }

/-- The body of one non-skipped pipeline step (core.py lines 369–453):
everything from task-type parsing to the agent invocation sits inside the
`try`, whose `except` clause produces a `Failed` result; the approval-denied
branch returns a `Cancelled` result without saving the session. -/
def runStepExec (env : OrchEnv) (step : PipelineStep) (st : PipeState) :
    StepOut :=
  match TaskType.ofString step.task_type with
  | none => haltFailed env st step.name (invalidTaskMsg step.task_type)
  | some t =>
      match route env.registered t with
      | .error e => haltFailed env st step.name e
      | .ok decision =>
          if decision.requires_human_approval &&
              !env.approval (pipelineApprovalMsg step.name) decision then
            .halt
              { result :=
                  { status := .cancelled, outputs := [],
                    error := some (cancelMsg step.name),
                    completed_steps := st.completed,
                    current_step := some step.name },
                state := st }
          else
            runStepInvoke env step decision st

/-- One iteration of the step loop of `run_pipeline` (core.py lines
356–453).  `result.current_step` is set before the skip-condition check;
a step whose condition signals skip is passed over with the state
otherwise unchanged. -/
def runStep (env : OrchEnv) (step : PipelineStep) (st : PipeState) :
    StepOut :=
  if step.shouldExecute st.ctx then
    runStepExec env step { st with currentStep := some step.name }
  else
    .next { st with currentStep := some step.name }

/-- The step loop of `run_pipeline` plus its `Completed` epilogue (core.py
lines 356–469): after all steps, status becomes `Completed`, the final
context is copied into the outputs, and the session is persisted. -/
def runSteps (env : OrchEnv) : List PipelineStep → PipeState → PipeOut
  | [], st =>
      let savedSession := mgrTruncate env.maxHistory st.session
      { result :=
          { status := .completed, outputs := st.ctx, error := none,
            completed_steps := st.completed, current_step := none },
        state :=
          { st with session := savedSession, currentStep := none,
                    saved := st.saved ++ [savedSession] } }
  | step :: rest, st =>
      match runStep env step st with
      | .halt out => out
      | .next st' => runSteps env rest st'

/-- `Orchestrator.run_pipeline` (core.py lines 310–469) on an explicitly
supplied session: seed the context with `initial_context` plus the initial
input under the reserved `"user_input"` key, then run the step loop. -/
def runPipeline (env : OrchEnv) (pipeline : Pipeline) (session : Session)
    (initialInput : String) (initialContext : Ctx := []) : PipeOut :=
  let ctx := ctxSet initialContext "user_input" (.str initialInput)
  runSteps env pipeline.steps
    { ctx := ctx, session := session, completed := [] }

/-! ## Single-request path (`Orchestrator.run`, core.py lines 175–245) -/

/-- The approval prompt built for a single request (core.py line 220). -/
def runApprovalMsg (t : TaskType) (agentName : String) : String :=
  "Task " ++ sq ++ t.value ++ sq ++ " requires approval. Proceed with " ++
    agentName ++ "?"

/-- Outcome of `Orchestrator.run`: the returned response plus the final
session, the persisted documents and the agent invocations made. -/
structure RunOut where
  response : AgentResponse
  session : Session
  saved : List Session := []
  calls : List (String × String) := []

/-- `Orchestrator.run` (core.py lines 175–245) on an explicitly supplied
session.  The human message is appended first; classification runs only
when no explicit task type is given; routing errors and agent-invocation
errors are not caught here, so they surface as `Except.error`; an approval
denial produces a synthetic system response that is recorded and saved. -/
def runSingle (env : OrchEnv) (userInput : String) (session : Session)
    (taskOverride : Option TaskType := none) : Except String RunOut :=
  let session := session.addMessage env.now "human" userInput
  let taskType :=
    match taskOverride with
    | some t => t
    | none => classifyRequest env.llm userInput session
  match route env.registered taskType with
  | .error e => .error e
  | .ok decision =>
      if decision.requires_human_approval &&
          !env.approval (runApprovalMsg taskType decision.agent_name)
            decision then
        let response : AgentResponse :=
          { content := "Task cancelled by user.", agent_name := "system",
            model := "" }
        let session := session.addMessage env.now "system" response.content
        let savedSession := mgrTruncate env.maxHistory session
        .ok { response := response, session := savedSession,
              saved := [savedSession], calls := [] }
      else
        match env.invoke decision.agent_name userInput with
        | .error e => .error e
        | .ok resp =>
            let session := session.addMessage env.now "agent" resp.content
              (some resp.agent_name) { artifacts := resp.artifacts }
            let savedSession := mgrTruncate env.maxHistory session
            .ok { response := resp, session := savedSession,
                  saved := [savedSession],
                  calls := [(decision.agent_name, userInput)] }

/-- `SessionManager.create_session` (session.py lines 146–170), with the
generated UUID and clock instant supplied explicitly. -/
def createSession (id : String) (now : Nat) (projectName : String)
    (description : String := "") (projectType : String := "2d")
    (artStyle : String := "") : Session :=
  { id := id, created_at := now, updated_at := now,
    project := { name := projectName, description := description,
                 project_type := projectType, art_style := artStyle } }

/-! ## Session store (`SessionManager`, session.py lines 125–224)

Persistence is whole-document replace-on-write keyed by session id; the
JSON round trip through `model_dump` / `model_validate` is modelled as
storing the session value itself.
-/

/-- The on-disk session directory: one document per session id. -/
abbrev SessionStore := List (String × Session)

/-- Replace-on-write of one session document. -/
def storeSet (store : SessionStore) (k : String) (v : Session) :
    SessionStore :=
  (k, v) :: store.filter (fun p => p.1 != k)

/-- `SessionManager.load` (session.py lines 172–183): `FileNotFoundError`
for an absent id is modelled as `Except.error`. -/
def storeLoad (store : SessionStore) (id : String) : Except String Session :=
  match store.lookup id with
  | some s => .ok s
  | none => .error ("Session not found: " ++ id)

/-- `SessionManager.save` (session.py lines 185–208): truncate the history
in place, then write the whole document under the session's id. -/
def storeSave (M : Nat) (store : SessionStore) (s : Session) :
    SessionStore × Session :=
  let s' := mgrTruncate M s
  (storeSet store s'.id s', s')

/-- Appending a sequence of messages through `Session.add_message`
(role/content pairs, all at instant `now`). -/
def appendMessages (s : Session) (now : Nat)
    (items : List (String × String)) : Session :=
  items.foldl (fun acc it => acc.addMessage now it.1 it.2) s

/-! ## Helper lemmas -/

theorem lookup_map_replace (c : Ctx) (k : String) (v : CtxVal)
    (h : (c.lookup k).isSome) :
    (c.map (replaceEntry k v)).lookup k = some v := by
  induction c with
  | nil => simp at h
  | cons p tl ih =>
      obtain ⟨a, b⟩ := p
      by_cases hak : a = k
      · subst hak
        simp [replaceEntry, List.lookup]
      · have hk : (k == a) = false := beq_eq_false_iff_ne.mpr (Ne.symm hak)
        have hak2 : (a == k) = false := beq_eq_false_iff_ne.mpr hak
        have h' : (tl.lookup k).isSome := by
          simpa [List.lookup, hk] using h
        simp [replaceEntry, List.lookup, hak2, hk, ih h']

theorem lookup_map_replace_ne (c : Ctx) (k k2 : String) (v : CtxVal)
    (hne : k ≠ k2) :
    (c.map (replaceEntry k2 v)).lookup k = c.lookup k := by
  induction c with
  | nil => simp
  | cons p tl ih =>
      obtain ⟨a, b⟩ := p
      by_cases hak : a = k2
      · subst hak
        have hk : (k == a) = false := beq_eq_false_iff_ne.mpr hne
        simp [replaceEntry, List.lookup, hk, ih]
      · have hak2 : (a == k2) = false := beq_eq_false_iff_ne.mpr hak
        simp only [List.map_cons, replaceEntry, hak2, cond_false, List.lookup]
        cases hcase : (k == a) <;> simp [hcase, ih]

theorem lookup_append (c d : Ctx) (k : String) :
    (c ++ d).lookup k =
      match c.lookup k with
      | some w => some w
      | none => d.lookup k := by
  induction c with
  | nil => simp [List.lookup]
  | cons p tl ih =>
      obtain ⟨a, b⟩ := p
      simp only [List.cons_append, List.lookup]
      cases hcase : (k == a) <;> simp [hcase, ih]

/-- Writing a key and reading it back yields the written value. -/
theorem ctxGet_ctxSet (c : Ctx) (k : String) (v : CtxVal) :
    ctxGet (ctxSet c k v) k = some v := by
  unfold ctxGet ctxSet
  cases hc : (c.lookup k).isSome with
  | true =>
      simp only [hc, if_pos rfl]
      exact lookup_map_replace c k v hc
  | false =>
      simp only [hc, if_neg Bool.false_ne_true]
      rw [lookup_append]
      cases hl : c.lookup k with
      | none => simp [List.lookup]
      | some w => rw [hl] at hc; simp at hc

/-- Writing one key leaves the value read at a different key unchanged. -/
theorem ctxGet_ctxSet_ne (c : Ctx) (k k2 : String) (v : CtxVal)
    (hne : k ≠ k2) : ctxGet (ctxSet c k2 v) k = ctxGet c k := by
  unfold ctxGet ctxSet
  cases hc : (c.lookup k2).isSome with
  | true =>
      simp only [hc, if_pos rfl]
      exact lookup_map_replace_ne c k k2 v hne
  | false =>
      simp only [hc, if_neg Bool.false_ne_true]
      rw [lookup_append]
      cases hl : c.lookup k with
      | none =>
          have hk : (k == k2) = false := beq_eq_false_iff_ne.mpr hne
          simp [List.lookup, hk]
      | some w => simp

theorem mgrTruncate_of_le (M : Nat) (s : Session)
    (h : s.history.length ≤ M) : mgrTruncate M s = s := by
  unfold mgrTruncate Session.truncateHistory
  rw [if_pos h]

theorem mgrTruncate_count (M : Nat) (s : Session) :
    (mgrTruncate M s).truncated_message_count =
      s.truncated_message_count + (s.history.length - M) := by
  unfold mgrTruncate Session.truncateHistory
  split
  · rename_i h
    rw [Nat.sub_eq_zero_of_le h]
    simp
  · rfl

theorem mgrTruncate_history_of_lt (M : Nat) (s : Session)
    (hM : M ≠ 0) (h : M < s.history.length) :
    (mgrTruncate M s).history = s.history.drop (s.history.length - M) := by
  unfold mgrTruncate Session.truncateHistory pySliceLast
  rw [if_neg (not_le.mpr h), if_neg hM]

theorem mgrTruncate_length (M : Nat) (s : Session) (hM : 1 ≤ M) :
    (mgrTruncate M s).history.length = min s.history.length M := by
  rcases le_or_lt s.history.length M with h | h
  · rw [mgrTruncate_of_le M s h, Nat.min_eq_left h]
  · rw [mgrTruncate_history_of_lt M s (by omega) h]
    simp [Nat.min_eq_right (le_of_lt h)]
    omega

theorem mgrTruncate_fixed_fields (M : Nat) (s : Session) :
    (mgrTruncate M s).id = s.id ∧
    (mgrTruncate M s).created_at = s.created_at ∧
    (mgrTruncate M s).updated_at = s.updated_at ∧
    (mgrTruncate M s).project = s.project ∧
    (mgrTruncate M s).agent_contexts = s.agent_contexts := by
  unfold mgrTruncate Session.truncateHistory
  split <;> exact ⟨rfl, rfl, rfl, rfl, rfl⟩

/-- The message value appended by `Session.add_message` for a role/content
pair. -/
def plainMessage (now : Nat) (it : String × String) : Message :=
  { role := it.1, content := it.2, timestamp := now }

theorem appendMessages_history (now : Nat) (items : List (String × String)) :
    ∀ s : Session, (appendMessages s now items).history =
      s.history ++ items.map (plainMessage now) := by
  induction items with
  | nil => intro s; simp [appendMessages]
  | cons it tl ih =>
      intro s
      simp only [appendMessages, List.foldl_cons] at *
      rw [ih]
      simp [Session.addMessage, plainMessage]

theorem appendMessages_count (now : Nat) (items : List (String × String)) :
    ∀ s : Session, (appendMessages s now items).truncated_message_count =
      s.truncated_message_count := by
  induction items with
  | nil => intro s; simp [appendMessages]
  | cons it tl ih =>
      intro s
      simp only [appendMessages, List.foldl_cons] at *
      rw [ih]
      simp [Session.addMessage]

theorem runStepInvoke_halt_outputs (env : OrchEnv) (step : PipelineStep)
    (decision : RoutingDecision) (st : PipeState) (out : PipeOut)
    (h : runStepInvoke env step decision st = .halt out) :
    out.result.outputs = [] := by
  unfold runStepInvoke at h
  split at h
  · unfold haltFailed at h
    cases h
    rfl
  · cases h

theorem runStepExec_halt_outputs (env : OrchEnv) (step : PipelineStep)
    (st : PipeState) (out : PipeOut)
    (h : runStepExec env step st = .halt out) : out.result.outputs = [] := by
  unfold runStepExec at h
  split at h
  · unfold haltFailed at h
    cases h
    rfl
  · split at h
    · unfold haltFailed at h
      cases h
      rfl
    · split at h
      · cases h
        rfl
      · exact runStepInvoke_halt_outputs _ _ _ _ _ h

/-- Any `return` taken before the epilogue carries an empty outputs map:
`PipelineResult.outputs` is only assigned in the `Completed` epilogue. -/
theorem runStep_halt_outputs (env : OrchEnv) (step : PipelineStep)
    (st : PipeState) (out : PipeOut)
    (h : runStep env step st = .halt out) : out.result.outputs = [] := by
  unfold runStep at h
  split at h
  · exact runStepExec_halt_outputs _ _ _ _ h
  · cases h

/-- An `output_key` never collides with its derived artifacts key. -/
theorem key_ne_artifacts (K : String) : K ≠ K ++ "_artifacts" := by
  intro h
  have hlen := congrArg String.length h
  rw [String.length_append] at hlen
  have h10 : "_artifacts".length = 10 := by decide
  omega

/-! ## Concrete fixtures used by counterexamples and witnesses -/

/-- The agent identifiers created by the factory configuration. -/
def allAgents : List String :=
  ["architect", "designer", "developer_2d", "developer_3d", "art_director",
   "qa"]

/-- An approval callback that denies every request. -/
def denyAll : String → RoutingDecision → Bool := fun _ _ => false

/-- An approval callback that grants every request. -/
def approveAll : String → RoutingDecision → Bool := fun _ _ => true

/-- A stub agent seam whose response content names the invoked agent. -/
def echoInvoke : String → String → Except String AgentResponse :=
  fun name _ => .ok { content := "out-" ++ name, agent_name := name,
                      model := "m" }

/-- A stub agent seam where the QA agent raises and every other agent
responds. -/
def failQaInvoke : String → String → Except String AgentResponse :=
  fun name _ =>
    if name == "qa" then .error "Agent error"
    else .ok { content := "design done", agent_name := name, model := "m" }

/-!
## C1 — approval denial short-circuits `run_pipeline`

The code matches the claim on the `Cancelled` status, the step-naming
reason, the empty `completed_steps` and the absence of any agent
invocation, but the denial branch (core.py lines 399–403) returns without
calling `SessionManager.save`, so the session is NOT persisted by
`run_pipeline` on this path (unlike the single-request path, core.py line
228, which does save after a denial).
-/

def c1Env : OrchEnv :=
  { registered := allAgents, invoke := echoInvoke, approval := denyAll }

def c1Session : Session := createSession "c1" 0 "Test Game"

def c1Pipeline : Pipeline :=
  { name := "new_game", description := "",
    steps :=
      [{ name := "concept", task_type := "game_concept",
         output_key := some "concept" },
       { name := "mechanics", task_type := "mechanic_design",
         input_key := some "concept" }] }

/-- C1 counterexample: a two-step pipeline whose first step requires
approval, with a denying callback, satisfies every premise of the claim,
yet `run_pipeline` performs no save at all on the denial path
(`state.saved = []`), refuting the claim's "session is still persisted"
conjunct. -/
theorem approval_denial_no_save_counterexample :
    (runPipeline c1Env c1Pipeline c1Session "make a game").result.status =
      .cancelled ∧
    (runPipeline c1Env c1Pipeline c1Session "make a game").result.completed_steps
      = [] ∧
    (runPipeline c1Env c1Pipeline c1Session "make a game").state.calls = [] ∧
    (runPipeline c1Env c1Pipeline c1Session "make a game").state.saved = [] := by
  decide

/-- C1 (corrected): for every pipeline whose first step parses to an
approval-required task routed to a registered agent, if the approval
callback denies, `run_pipeline` returns `Cancelled` with a human-readable
error naming the step, `completed_steps = []`, no agent is invoked for that
step or any later step — but no session save happens on this path: the
session object is returned exactly as it was passed in. -/
theorem approval_denial_short_circuit (env : OrchEnv) (A : PipelineStep)
    (rest : List PipelineStep) (pname pdesc : String) (session : Session)
    (input : String) (ictx ctx0 : Ctx) (tA : TaskType)
    (hctx0 : ctx0 = ctxSet ictx "user_input" (.str input))
    (hexec : A.shouldExecute ctx0 = true)
    (htask : TaskType.ofString A.task_type = some tA)
    (hreg : env.registered.contains (TASK_AGENT_MAP tA) = true)
    (happ : APPROVAL_REQUIRED tA = true)
    (hdeny : env.approval (pipelineApprovalMsg A.name) (routeDecision tA)
      = false) :
    (runPipeline env ⟨pname, pdesc, A :: rest⟩ session input ictx).result.status
      = .cancelled ∧
    (runPipeline env ⟨pname, pdesc, A :: rest⟩ session input ictx).result.error
      = some (cancelMsg A.name) ∧
    (runPipeline env ⟨pname, pdesc, A :: rest⟩ session input
      ictx).result.completed_steps = [] ∧
    (runPipeline env ⟨pname, pdesc, A :: rest⟩ session input ictx).state.calls
      = [] ∧
    (runPipeline env ⟨pname, pdesc, A :: rest⟩ session input ictx).state.saved
      = [] ∧
    (runPipeline env ⟨pname, pdesc, A :: rest⟩ session input ictx).state.session
      = session := by
  subst hctx0
  simp only [routeDecision, happ] at hdeny
  simp only [runPipeline, runSteps, runStep, runStepExec, route, hexec, htask,
    hreg, happ, routeDecision, if_true, hdeny, Bool.not_false, Bool.and_true]
  exact ⟨trivial, trivial, trivial, trivial, trivial, trivial⟩

/-- C1 witness: the corrected theorem applied to the concrete denial
scenario. -/
theorem approval_denial_short_circuit_witness :
    (runPipeline c1Env c1Pipeline c1Session "make a game").result.status =
      .cancelled ∧
    (runPipeline c1Env c1Pipeline c1Session "make a game").result.error =
      some (cancelMsg "concept") ∧
    (runPipeline c1Env c1Pipeline c1Session "make a game").result.completed_steps
      = [] ∧
    (runPipeline c1Env c1Pipeline c1Session "make a game").state.calls = [] ∧
    (runPipeline c1Env c1Pipeline c1Session "make a game").state.saved = [] ∧
    (runPipeline c1Env c1Pipeline c1Session "make a game").state.session =
      c1Session :=
  approval_denial_short_circuit c1Env
    { name := "concept", task_type := "game_concept",
      output_key := some "concept" }
    [{ name := "mechanics", task_type := "mechanic_design",
       input_key := some "concept" }]
    "new_game" "" c1Session "make a game" []
    (ctxSet [] "user_input" (.str "make a game")) TaskType.game_concept
    rfl (by decide) (by decide) (by decide) (by decide) (by decide)

/-!
## C2 — fail-fast on a mid-pipeline invocation error
-/

def c2Env : OrchEnv :=
  { registered := allAgents, invoke := failQaInvoke, approval := approveAll }

def c2Session : Session := createSession "c2" 0 "Test Game"

def c2StepA : PipelineStep :=
  { name := "step1", task_type := "mechanic_design",
    output_key := some "design" }

def c2StepB : PipelineStep :=
  { name := "step2", task_type := "review", input_key := some "design" }

def c2StepC : PipelineStep :=
  { name := "step3", task_type := "level_design" }

def c2Pipeline : Pipeline :=
  { name := "test", description := "",
    steps := [c2StepA, c2StepB, c2StepC] }

/-- C2 (confirmed): in a pipeline `[A, B, C]` where A's invocation succeeds
and B's raises, `run_pipeline` returns `Failed` with an error naming B,
`completed_steps = [A]`, exactly two agent invocations happen (so C's agent
is never invoked), and the session carrying A's appended agent message is
saved before returning. -/
theorem pipeline_fail_fast (env : OrchEnv) (A B C : PipelineStep)
    (pname pdesc : String) (session : Session) (input : String)
    (ictx ctx0 ctx1 : Ctx) (tA tB : TaskType) (respA : AgentResponse)
    (e : String)
    (hctx0 : ctx0 = ctxSet ictx "user_input" (.str input))
    (hexecA : A.shouldExecute ctx0 = true)
    (htaskA : TaskType.ofString A.task_type = some tA)
    (hregA : env.registered.contains (TASK_AGENT_MAP tA) = true)
    (happA : ((routeDecision tA).requires_human_approval &&
        !env.approval (pipelineApprovalMsg A.name) (routeDecision tA))
      = false)
    (hinvA : env.invoke (TASK_AGENT_MAP tA) (stepInputVal A ctx0).toPyStr
      = .ok respA)
    (hctx1 : ctx1 = stepOutputCtx A respA ctx0)
    (hexecB : B.shouldExecute ctx1 = true)
    (htaskB : TaskType.ofString B.task_type = some tB)
    (hregB : env.registered.contains (TASK_AGENT_MAP tB) = true)
    (happB : ((routeDecision tB).requires_human_approval &&
        !env.approval (pipelineApprovalMsg B.name) (routeDecision tB))
      = false)
    (hinvB : env.invoke (TASK_AGENT_MAP tB) (stepInputVal B ctx1).toPyStr
      = .error e) :
    (runPipeline env ⟨pname, pdesc, [A, B, C]⟩ session input ictx).result.status
      = .failed ∧
    (runPipeline env ⟨pname, pdesc, [A, B, C]⟩ session input ictx).result.error
      = some (failMsg B.name e) ∧
    (runPipeline env ⟨pname, pdesc, [A, B, C]⟩ session input
      ictx).result.completed_steps = [A.name] ∧
    (runPipeline env ⟨pname, pdesc, [A, B, C]⟩ session input ictx).state.calls
      = [(TASK_AGENT_MAP tA, (stepInputVal A ctx0).toPyStr),
         (TASK_AGENT_MAP tB, (stepInputVal B ctx1).toPyStr)] ∧
    (runPipeline env ⟨pname, pdesc, [A, B, C]⟩ session input ictx).state.saved
      = [mgrTruncate env.maxHistory (stepSessionAfter env A respA session)] ∧
    (stepSessionAfter env A respA session).history =
      session.history ++
        [{ role := "agent", agent_name := some respA.agent_name,
           content := respA.content, timestamp := env.now,
           metadata := { pipeline_step := some A.name,
                         artifacts := respA.artifacts } }] := by
  subst hctx0
  subst hctx1
  simp only [routeDecision] at happA happB
  simp only [runPipeline, runSteps, runStep, runStepExec, runStepInvoke, route,
    routeDecision, haltFailed, hexecA, htaskA, hregA, happA, hinvA, hexecB,
    htaskB, hregB, happB, hinvB, if_true, Bool.false_eq_true, if_false]
  refine ⟨trivial, trivial, by simp, by simp, by simp, ?_⟩
  simp [stepSessionAfter, Session.addMessage]

/-- C2 witness: the theorem applied to a concrete three-step pipeline where
the second step's QA agent raises. -/
theorem pipeline_fail_fast_witness :
    (runPipeline c2Env c2Pipeline c2Session "Design a jump mechanic").result.status
      = .failed ∧
    (runPipeline c2Env c2Pipeline c2Session "Design a jump mechanic").result.error
      = some (failMsg "step2" "Agent error") ∧
    (runPipeline c2Env c2Pipeline c2Session
      "Design a jump mechanic").result.completed_steps = ["step1"] ∧
    (runPipeline c2Env c2Pipeline c2Session "Design a jump mechanic").state.calls
      = [("designer", "Design a jump mechanic"), ("qa", "design done")] :=
  have h := pipeline_fail_fast c2Env c2StepA c2StepB c2StepC "test" ""
    c2Session "Design a jump mechanic" []
    (ctxSet [] "user_input" (.str "Design a jump mechanic"))
    (stepOutputCtx c2StepA
      { content := "design done", agent_name := "designer", model := "m" }
      (ctxSet [] "user_input" (.str "Design a jump mechanic")))
    TaskType.mechanic_design TaskType.review
    { content := "design done", agent_name := "designer", model := "m" }
    "Agent error"
    rfl (by decide) (by decide) (by decide) (by decide) rfl
    rfl (by decide) (by decide) (by decide) (by decide) rfl
  ⟨h.1, h.2.1, h.2.2.1, h.2.2.2.1.trans (by decide)⟩

/-!
## C4 — context threading between consecutive steps
-/

/-- C4 (confirmed): in a two-step pipeline with `S1.output_key = K =
S2.input_key`, where step 1's invocation succeeds and step 2 reaches its
invocation, step 2's agent is invoked with exactly step 1's response
content as its user input (whatever step 2's invocation then returns). -/
theorem pipeline_context_threading (env : OrchEnv) (S1 S2 : PipelineStep)
    (pname pdesc : String) (session : Session) (input : String)
    (ictx ctx0 ctx1 : Ctx) (t1 t2 : TaskType) (resp1 : AgentResponse)
    (K : String)
    (hK : K ≠ "")
    (hout : S1.output_key = some K)
    (hin : S2.input_key = some K)
    (hctx0 : ctx0 = ctxSet ictx "user_input" (.str input))
    (hexec1 : S1.shouldExecute ctx0 = true)
    (ht1 : TaskType.ofString S1.task_type = some t1)
    (hreg1 : env.registered.contains (TASK_AGENT_MAP t1) = true)
    (happ1 : ((routeDecision t1).requires_human_approval &&
        !env.approval (pipelineApprovalMsg S1.name) (routeDecision t1))
      = false)
    (hinv1 : env.invoke (TASK_AGENT_MAP t1) (stepInputVal S1 ctx0).toPyStr
      = .ok resp1)
    (hctx1 : ctx1 = stepOutputCtx S1 resp1 ctx0)
    (hexec2 : S2.shouldExecute ctx1 = true)
    (ht2 : TaskType.ofString S2.task_type = some t2)
    (hreg2 : env.registered.contains (TASK_AGENT_MAP t2) = true)
    (happ2 : ((routeDecision t2).requires_human_approval &&
        !env.approval (pipelineApprovalMsg S2.name) (routeDecision t2))
      = false) :
    (runPipeline env ⟨pname, pdesc, [S1, S2]⟩ session input ictx).state.calls
      = [(TASK_AGENT_MAP t1, (stepInputVal S1 ctx0).toPyStr),
         (TASK_AGENT_MAP t2, resp1.content)] := by
  subst hctx0
  have hget : ctxGet (stepOutputCtx S1 resp1
      (ctxSet ictx "user_input" (.str input))) K =
      some (.str resp1.content) := by
    unfold stepOutputCtx
    simp only [hout]
    rw [if_pos hK]
    by_cases hart : resp1.artifacts = []
    · simp only [hart, ne_eq, not_true_eq_false, if_false]
      exact ctxGet_ctxSet _ _ _
    · simp only [ne_eq, hart, not_false_eq_true, if_true]
      rw [ctxGet_ctxSet_ne _ _ _ _ (key_ne_artifacts K)]
      exact ctxGet_ctxSet _ _ _
  have hkey : stepInputVal S2 ctx1 = .str resp1.content := by
    subst hctx1
    unfold stepInputVal
    simp only [hin]
    rw [if_pos ⟨hK, by rw [hget]; rfl⟩, hget]
    rfl
  subst hctx1
  simp only [routeDecision] at happ1 happ2
  simp only [CtxVal.toPyStr] at hinv1
  simp only [runPipeline, runSteps, runStep, runStepExec, runStepInvoke, route,
    routeDecision, haltFailed, hexec1, ht1, hreg1, happ1, hinv1, hexec2,
    ht2, hreg2, happ2, hkey, if_true, Bool.false_eq_true, if_false,
    CtxVal.toPyStr]
  cases hi2 : env.invoke (TASK_AGENT_MAP t2) resp1.content with
  | error e => simp [haltFailed, hi2]
  | ok resp2 => simp [hi2, runSteps]

def c4Env : OrchEnv :=
  { registered := allAgents, invoke := echoInvoke, approval := approveAll }

def c4Session : Session := createSession "c4" 0 "Test Game"

def c4Step1 : PipelineStep :=
  { name := "design", task_type := "mechanic_design",
    output_key := some "design" }

def c4Step2 : PipelineStep :=
  { name := "check", task_type := "review", input_key := some "design" }

/-!
## C10 — outputs are copied into the result only on completion
-/

theorem runSteps_outputs_of_not_completed (env : OrchEnv) :
    ∀ (steps : List PipelineStep) (st : PipeState),
      (runSteps env steps st).result.status ≠ .completed →
      (runSteps env steps st).result.outputs = [] := by
  intro steps
  induction steps with
  | nil => intro st h; exact absurd rfl h
  | cons step rest ih =>
      intro st h
      simp only [runSteps] at h ⊢
      cases hs : runStep env step st with
      | halt out => exact runStep_halt_outputs env step st out hs
      | next st' => rw [hs] at h; exact ih st' h

/-- C10 (confirmed): every `run_pipeline` result whose status is `Failed`
or `Cancelled` has an empty outputs map — the accumulated context is copied
into `PipelineResult.outputs` only in the `Completed` epilogue. -/
theorem outputs_empty_unless_completed (env : OrchEnv) (pipeline : Pipeline)
    (session : Session) (input : String) (ictx : Ctx)
    (h : (runPipeline env pipeline session input ictx).result.status = .failed
      ∨ (runPipeline env pipeline session input ictx).result.status =
          .cancelled) :
    (runPipeline env pipeline session input ictx).result.outputs = [] := by
  unfold runPipeline at h ⊢
  apply runSteps_outputs_of_not_completed
  rcases h with h | h <;> rw [h] <;> simp

def c10Env : OrchEnv :=
  { registered := [], invoke := echoInvoke, approval := approveAll }

def c10Session : Session := createSession "c10" 0 "Test Game"

def c10Pipeline : Pipeline :=
  { name := "p", description := "",
    steps := [{ name := "s1", task_type := "mechanic_design" }] }

/-- C10 witness: a concrete failed run (its only step routes to an
unregistered agent) has empty outputs. -/
theorem outputs_empty_unless_completed_witness :
    ((runPipeline c10Env c10Pipeline c10Session "x").result.status = .failed
      ∨ (runPipeline c10Env c10Pipeline c10Session "x").result.status =
          .cancelled) ∧
    (runPipeline c10Env c10Pipeline c10Session "x").result.outputs = [] :=
  ⟨Or.inl (by decide),
   outputs_empty_unless_completed c10Env c10Pipeline c10Session "x" []
     (Or.inl (by decide))⟩

/-!
## C9 — propagation policy for routing, classification and invocation
failures

In `Orchestrator.run` the `route` call and the agent invocation sit outside
any handler, so both propagate to the caller.  In `run_pipeline` the
`TaskType(step.task_type)` parse, the `route` call and the invocation all
sit inside the per-step `try` (core.py lines 371–453), so a routing failure
while resolving a pipeline step is converted into a structured `Failed`
result rather than propagating — contrary to the claim.  Classification
failures are recovered by the keyword fallback in both paths.
-/

def c9Env : OrchEnv :=
  { registered := [], invoke := echoInvoke, approval := approveAll }

def c9Session : Session := createSession "c9" 0 "Test Game"

def c9Pipeline : Pipeline :=
  { name := "p", description := "",
    steps := [{ name := "s1", task_type := "mechanic_design" }] }

/-- C9 counterexample: a pipeline step routed to an unregistered agent does
NOT propagate a hard error past the façade — `run_pipeline` returns a
structured `Failed` result wrapping the routing error text. -/
theorem routing_error_pipeline_counterexample :
    (runPipeline c9Env c9Pipeline c9Session "x").result.status = .failed ∧
    (runPipeline c9Env c9Pipeline c9Session "x").result.error =
      some (failMsg "s1" ("Agent not registered: " ++ "designer")) := by
  decide

/-- C9 (corrected): routing failures propagate as hard errors from the
single-request `run` path (for both an unregistered agent and a raised
agent invocation error), while inside `run_pipeline` step resolution an
unregistered agent or an unrecognized task-type tag is caught by the
per-step handler and converted into a structured `Failed` result;
classification failures (transport error or invalid label) are recovered
locally by the keyword fallback. -/
theorem routing_error_propagation_policy :
    (∀ (env : OrchEnv) (input : String) (session : Session) (t : TaskType),
      env.registered.contains (TASK_AGENT_MAP t) = false →
      runSingle env input session (some t) =
        .error ("Agent not registered: " ++ TASK_AGENT_MAP t)) ∧
    (∀ (env : OrchEnv) (input : String) (session : Session) (t : TaskType)
        (e : String),
      env.registered.contains (TASK_AGENT_MAP t) = true →
      ((routeDecision t).requires_human_approval &&
        !env.approval (runApprovalMsg t (TASK_AGENT_MAP t)) (routeDecision t))
        = false →
      env.invoke (TASK_AGENT_MAP t) input = .error e →
      runSingle env input session (some t) = .error e) ∧
    (∀ (env : OrchEnv) (A : PipelineStep) (rest : List PipelineStep)
        (pname pdesc : String) (session : Session) (input : String)
        (ictx ctx0 : Ctx) (tA : TaskType),
      ctx0 = ctxSet ictx "user_input" (.str input) →
      A.shouldExecute ctx0 = true →
      TaskType.ofString A.task_type = some tA →
      env.registered.contains (TASK_AGENT_MAP tA) = false →
      (runPipeline env ⟨pname, pdesc, A :: rest⟩ session input
        ictx).result.status = .failed ∧
      (runPipeline env ⟨pname, pdesc, A :: rest⟩ session input
        ictx).result.error =
        some (failMsg A.name ("Agent not registered: " ++ TASK_AGENT_MAP tA)))
      ∧
    (∀ (env : OrchEnv) (A : PipelineStep) (rest : List PipelineStep)
        (pname pdesc : String) (session : Session) (input : String)
        (ictx ctx0 : Ctx),
      ctx0 = ctxSet ictx "user_input" (.str input) →
      A.shouldExecute ctx0 = true →
      TaskType.ofString A.task_type = none →
      (runPipeline env ⟨pname, pdesc, A :: rest⟩ session input
        ictx).result.status = .failed ∧
      (runPipeline env ⟨pname, pdesc, A :: rest⟩ session input
        ictx).result.error =
        some (failMsg A.name (invalidTaskMsg A.task_type))) ∧
    (∀ (e input : String) (session : Session),
      classifyRequest (.error e) input session =
        keywordFallback input session) ∧
    (∀ (raw input : String) (session : Session),
      TaskType.ofString (strLower (strStrip raw)) = none →
      classifyRequest (.ok raw) input session =
        keywordFallback input session) := by
  refine ⟨?_, ?_, ?_, ?_, ?_, ?_⟩
  · intro env input session t h
    simp only [runSingle, route, h, Bool.false_eq_true, if_false]
  · intro env input session t e hreg happ hinv
    simp only [routeDecision] at happ
    simp only [runSingle, route, routeDecision, hreg, happ, hinv, if_true,
      Bool.false_eq_true, if_false]
  · intro env A rest pname pdesc session input ictx ctx0 tA hctx0 hexec
      htask hreg
    subst hctx0
    simp only [runPipeline, runSteps, runStep, runStepExec, haltFailed, route,
      hexec, htask, hreg, Bool.false_eq_true, if_false, if_true]
    exact ⟨trivial, trivial⟩
  · intro env A rest pname pdesc session input ictx ctx0 hctx0 hexec htask
    subst hctx0
    simp only [runPipeline, runSteps, runStep, runStepExec, haltFailed,
      hexec, htask, if_true]
    exact ⟨trivial, trivial⟩
  · intro e input session
    rfl
  · intro raw input session h
    simp only [classifyRequest, h]

/-- C9 witness: each part of the propagation policy at a concrete input. -/
theorem routing_error_propagation_policy_witness :
    runSingle c9Env "x" c9Session (some .mechanic_design) =
      .error ("Agent not registered: " ++ "designer") ∧
    runSingle c2Env "x" c9Session (some .review) = .error "Agent error" ∧
    (runPipeline c9Env c9Pipeline c9Session "x").result.status = .failed ∧
    (runPipeline c9Env ⟨"p", "", [{ name := "s1", task_type := "bogus" }]⟩
      c9Session "x").result.status = .failed ∧
    classifyRequest (.error "down") "Fix the bug" c9Session =
      keywordFallback "Fix the bug" c9Session ∧
    classifyRequest (.ok "not_a_tag") "Fix the bug" c9Session =
      keywordFallback "Fix the bug" c9Session :=
  ⟨routing_error_propagation_policy.1 c9Env "x" c9Session .mechanic_design
     (by decide),
   routing_error_propagation_policy.2.1 c2Env "x" c9Session .review
     "Agent error" (by decide) (by decide) rfl,
   (routing_error_propagation_policy.2.2.1 c9Env
     { name := "s1", task_type := "mechanic_design" } [] "p" "" c9Session
     "x" [] (ctxSet [] "user_input" (.str "x")) .mechanic_design rfl
     (by decide) (by decide) (by decide)).1,
   (routing_error_propagation_policy.2.2.2.1 c9Env
     { name := "s1", task_type := "bogus" } [] "p" "" c9Session
     "x" [] (ctxSet [] "user_input" (.str "x")) rfl
     (by decide) (by decide)).1,
   routing_error_propagation_policy.2.2.2.2.1 "down" "Fix the bug" c9Session,
   routing_error_propagation_policy.2.2.2.2.2 "not_a_tag" "Fix the bug"
     c9Session (by decide)⟩

/-!
## C5 — end-to-end routing of "Implement a double-jump ability"

The keyword table checks mechanic/gameplay/ability/control phrases before
any development phrases (router.py lines 350–351), and the request contains
"ability", so the fallback resolves to `mechanic_design` and routes to the
`designer` agent — not to `implement_feature_2d`/`developer_2d` as the
claim states.  The repository's own test
(`tests/test_router.py::test_mechanic_design`) asserts this priority.
-/

def c5Env : OrchEnv :=
  { registered := allAgents, invoke := echoInvoke, approval := approveAll,
    llm := .error "classifier offline" }

def c5Session : Session := createSession "sess-1" 0 "Test Game" "" "2d"

/-- C5 counterexample: with LLM classification failing, the keyword
fallback classifies the request as `mechanic_design`, which is not the 2D
implementation tag and routes to `designer`, not `developer_2d`. -/
theorem double_jump_classification_counterexample :
    keywordFallback "Implement a double-jump ability" c5Session =
      TaskType.mechanic_design ∧
    TaskType.mechanic_design ≠ TaskType.implement_feature_2d ∧
    TASK_AGENT_MAP TaskType.mechanic_design ≠ "developer_2d" := by decide

/-- C5 (corrected): creating a "2d" session and running "Implement a
double-jump ability" with no explicit task type and a failing classifier
resolves (via the keyword fallback, on the word "ability") to
`mechanic_design`, routes to the `designer` agent, appends the response as
the 2nd message in history, and `history[-1].agent_name` equals that
agent's identifier. -/
theorem double_jump_end_to_end :
    classifyRequest c5Env.llm "Implement a double-jump ability"
      (c5Session.addMessage 0 "human" "Implement a double-jump ability") =
      TaskType.mechanic_design ∧
    (route c5Env.registered TaskType.mechanic_design).toOption =
      some (routeDecision TaskType.mechanic_design) ∧
    (routeDecision TaskType.mechanic_design).agent_name = "designer" ∧
    (runSingle c5Env "Implement a double-jump ability" c5Session
      none).toOption.map (fun o => o.response.agent_name) = some "designer" ∧
    (runSingle c5Env "Implement a double-jump ability" c5Session
      none).toOption.map (fun o => o.session.history.length) = some 2 ∧
    (runSingle c5Env "Implement a double-jump ability" c5Session
      none).toOption.map
      (fun o => (o.session.history.map Message.agent_name).getLast?) =
      some (some (some "designer")) := by decide

/-!
## C6 — project-kind inference chain

`get_project_type` (router.py lines 217–244) never reads the
`ProjectState.project_type` field set at session creation: its chain is
game-design-doc declared kind → technical-spec rendering hint → tracked 3D
assets → default 2D.  The repository's router tests exercise exactly this
chain (3D detected from `game_design_doc`, never from the field).
-/

def c6Project : ProjectState := { name := "Solo", project_type := "3d" }

/-- C6 counterexample: a project state recording explicit kind "3d" (and
nothing else) is classified as 2D. -/
theorem project_kind_explicit_counterexample :
    getProjectType c6Project = ProjectType.proj2d ∧
    ProjectType.proj2d ≠ ProjectType.proj3d := by decide

/-- C6 (corrected): project-kind inference follows the chain: a declared
kind inside the game-design-doc blob wins ("3d" checked before "2d"); else
a "3d"/"forward+" hint in the technical spec's rendering entry; else
presence of any tracked 3D asset; else default 2D — and the explicit
`project_type` field recorded on the project state is never consulted. -/
theorem project_kind_inference_chain :
    (∀ (p : ProjectState) (k : String),
      getProjectType { p with project_type := k } = getProjectType p) ∧
    (∀ p : ProjectState, p.game_design_doc ≠ [] →
      strContains (strLower (blobGet p.game_design_doc "project_type")) "3d"
        = true →
      getProjectType p = .proj3d) ∧
    (∀ p : ProjectState,
      (p.game_design_doc = [] ∨
        (strContains (strLower (blobGet p.game_design_doc "project_type"))
            "3d" = false ∧
         strContains (strLower (blobGet p.game_design_doc "project_type"))
            "2d" = false)) →
      p.technical_spec ≠ [] →
      (strContains (strLower (blobGet p.technical_spec "rendering")) "3d"
          = true ∨
       strContains (strLower (blobGet p.technical_spec "rendering"))
          "forward+" = true) →
      getProjectType p = .proj3d) ∧
    (∀ p : ProjectState, p.game_design_doc = [] → p.technical_spec = [] →
      p.assets_3d ≠ [] → getProjectType p = .proj3d) ∧
    (∀ p : ProjectState, p.game_design_doc = [] → p.technical_spec = [] →
      p.assets_3d = [] → getProjectType p = .proj2d) := by
  have hneg1 : ∀ p : ProjectState,
      (p.game_design_doc = [] ∨
        (strContains (strLower (blobGet p.game_design_doc "project_type"))
            "3d" = false ∧
         strContains (strLower (blobGet p.game_design_doc "project_type"))
            "2d" = false)) →
      ¬ (p.game_design_doc ≠ [] ∧
         strContains (strLower (blobGet p.game_design_doc "project_type"))
           "3d" = true) := by
    intro p h hc
    rcases h with h | ⟨h3, _⟩
    · exact hc.1 h
    · rw [h3] at hc
      exact Bool.false_ne_true hc.2
  have hneg2 : ∀ p : ProjectState,
      (p.game_design_doc = [] ∨
        (strContains (strLower (blobGet p.game_design_doc "project_type"))
            "3d" = false ∧
         strContains (strLower (blobGet p.game_design_doc "project_type"))
            "2d" = false)) →
      ¬ (p.game_design_doc ≠ [] ∧
         strContains (strLower (blobGet p.game_design_doc "project_type"))
           "2d" = true) := by
    intro p h hc
    rcases h with h | ⟨_, h2⟩
    · exact hc.1 h
    · rw [h2] at hc
      exact Bool.false_ne_true hc.2
  refine ⟨fun p k => rfl, ?_, ?_, ?_, ?_⟩
  · intro p hdoc h3d
    unfold getProjectType
    rw [if_pos ⟨hdoc, h3d⟩]
  · intro p hfirst htech hrend
    unfold getProjectType
    rw [if_neg (hneg1 p hfirst), if_neg (hneg2 p hfirst),
      if_pos ⟨htech, hrend⟩]
  · intro p hdoc htech hassets
    unfold getProjectType
    rw [if_neg (hneg1 p (Or.inl hdoc)), if_neg (hneg2 p (Or.inl hdoc)),
      if_neg (fun hc => hc.1 htech), if_pos hassets]
  · intro p hdoc htech hassets
    unfold getProjectType
    rw [if_neg (hneg1 p (Or.inl hdoc)), if_neg (hneg2 p (Or.inl hdoc)),
      if_neg (fun hc => hc.1 htech), if_neg (fun hc => hc hassets)]

/-- C6 witness: each link of the corrected chain at a concrete project
state. -/
theorem project_kind_inference_chain_witness :
    getProjectType { c6Project with project_type := "2d" } =
      getProjectType c6Project ∧
    getProjectType { name := "G", game_design_doc := [("project_type", "3D")] }
      = ProjectType.proj3d ∧
    getProjectType { name := "G", technical_spec := [("rendering", "Forward+")] }
      = ProjectType.proj3d ∧
    getProjectType { name := "G", assets_3d := ["model.glb"] } =
      ProjectType.proj3d ∧
    getProjectType { name := "G" } = ProjectType.proj2d :=
  ⟨project_kind_inference_chain.1 c6Project "2d",
   project_kind_inference_chain.2.1
     { name := "G", game_design_doc := [("project_type", "3D")] }
     (by decide) (by decide),
   project_kind_inference_chain.2.2.1
     { name := "G", technical_spec := [("rendering", "Forward+")] }
     (Or.inl rfl) (by decide) (Or.inr (by decide)),
   project_kind_inference_chain.2.2.2.1
     { name := "G", assets_3d := ["model.glb"] } rfl rfl (by decide),
   project_kind_inference_chain.2.2.2.2
     { name := "G" } rfl rfl rfl⟩

/-!
## C7 — dimensionality override in the keyword fallback

Explicit 3D vocabulary beats the declared project kind only among the
development-flavored keyword groups: the concept, architecture, mechanic,
level and balancing groups are checked first (router.py lines 344–355), so
a request like "add a 3d ability" classifies as `mechanic_design`, not a
3D tag.  Restricted to requests matching none of those earlier groups, the
override holds for every session.
-/

/-- C7 counterexample: "add a 3d ability" contains explicit 3D vocabulary
yet classifies as `mechanic_design` (the mechanic group is checked first),
which is not a 3D-flavored tag. -/
theorem dimensionality_override_counterexample :
    keywordFallback "add a 3d ability" c5Session = TaskType.mechanic_design ∧
    TaskType.mechanic_design ∉
      [TaskType.implement_feature_3d, TaskType.create_scene_3d,
       TaskType.write_script_3d, TaskType.debug_3d] := by decide

/-- C7 (corrected): for every request that contains explicit 3D vocabulary
and matches none of the earlier concept/architecture/mechanic/level/balance
keyword groups, the fallback returns a 3D-flavored tag for EVERY session
(in particular one declared 2D); symmetrically a request with explicit 2D
vocabulary (and no 3D vocabulary, which is checked first) returns a
2D-flavored tag for every session. -/
theorem dimensionality_override :
    (∀ (input : String) (session : Session),
      anyKw (strLower input) ["3d", "mesh", "camera3d", "characterbody3d"]
        = true →
      anyKw (strLower input)
        ["concept", "idea", "game about", "design a game", "new game"]
        = false →
      anyKw (strLower input) ["architecture", "system design", "structure"]
        = false →
      anyKw (strLower input) ["mechanic", "gameplay", "ability", "control"]
        = false →
      anyKw (strLower input) ["level", "map", "environment", "world"]
        = false →
      anyKw (strLower input) ["balance", "difficulty", "tuning"] = false →
      keywordFallback input session ∈
        [TaskType.implement_feature_3d, TaskType.create_scene_3d,
         TaskType.write_script_3d, TaskType.debug_3d]) ∧
    (∀ (input : String) (session : Session),
      anyKw (strLower input)
        ["2d", "sprite", "camera2d", "characterbody2d", "tilemap"] = true →
      anyKw (strLower input) ["3d", "mesh", "camera3d", "characterbody3d"]
        = false →
      anyKw (strLower input)
        ["concept", "idea", "game about", "design a game", "new game"]
        = false →
      anyKw (strLower input) ["architecture", "system design", "structure"]
        = false →
      anyKw (strLower input) ["mechanic", "gameplay", "ability", "control"]
        = false →
      anyKw (strLower input) ["level", "map", "environment", "world"]
        = false →
      anyKw (strLower input) ["balance", "difficulty", "tuning"] = false →
      keywordFallback input session ∈
        [TaskType.implement_feature_2d, TaskType.create_scene_2d,
         TaskType.write_script_2d, TaskType.debug_2d]) := by
  constructor
  · intro input session h3d hcon harch hmech hlev hbal
    unfold keywordFallback
    simp only [hcon, harch, hmech, hlev, hbal, h3d, Bool.false_eq_true,
      if_false, if_true]
    cases h1 : anyKw (strLower input) ["implement", "code", "feature"] <;>
    cases h2 : anyKw (strLower input) ["scene", "node"] <;>
    cases h3 : anyKw (strLower input) ["script", "gdscript"] <;>
    cases h4 : anyKw (strLower input) ["bug", "fix", "debug"] <;>
      simp [h1, h2, h3, h4]
  · intro input session h2d h3d hcon harch hmech hlev hbal
    unfold keywordFallback
    simp only [hcon, harch, hmech, hlev, hbal, h3d, h2d, Bool.false_eq_true,
      if_false, if_true]
    cases h1 : anyKw (strLower input) ["implement", "code", "feature"] <;>
    cases h2 : anyKw (strLower input) ["scene", "node"] <;>
    cases h3 : anyKw (strLower input) ["script", "gdscript"] <;>
    cases h4 : anyKw (strLower input) ["bug", "fix", "debug"] <;>
      simp [h1, h2, h3, h4]

def c7Session3d : Session :=
  { id := "c7", project :=
      { name := "Test 3D Game",
        game_design_doc := [("project_type", "3d")] } }

/-- C7 witness: "code the 3d mesh collision" gets a 3D tag on a 2D-declared
session, and "code the sprite sheet" gets a 2D tag on a 3D-declared
session. -/
theorem dimensionality_override_witness :
    keywordFallback "code the 3d mesh collision" c5Session ∈
      [TaskType.implement_feature_3d, TaskType.create_scene_3d,
       TaskType.write_script_3d, TaskType.debug_3d] ∧
    keywordFallback "code the sprite sheet" c7Session3d ∈
      [TaskType.implement_feature_2d, TaskType.create_scene_2d,
       TaskType.write_script_2d, TaskType.debug_2d] :=
  ⟨dimensionality_override.1 "code the 3d mesh collision" c5Session
     (by decide) (by decide) (by decide) (by decide) (by decide) (by decide),
   dimensionality_override.2 "code the sprite sheet" c7Session3d
     (by decide) (by decide) (by decide) (by decide) (by decide) (by decide)
     (by decide)⟩

/-!
## C3 — history bound invariant

The invariant holds for every positive configured maximum.  At `M = 0`
(permitted: `max_session_history` is an unvalidated int defaulting to 100)
the Python slice `history[-0:]` is the whole list, so `truncate_history`
removes nothing while still reporting and counting removals — the claimed
`len(history) <= M` fails there.
-/

def c3Session : Session :=
  { id := "c3", project := { name := "Test Game" },
    history := [{ role := "human", content := "hello" }] }

/-- C3 counterexample: saving with configured maximum `M = 0` a session
holding one message keeps the message (`len(history) = 1 > 0 = M`) yet
counts one message as truncated. -/
theorem history_bound_counterexample :
    (mgrTruncate 0 c3Session).history.length = 1 ∧
    ¬ ((mgrTruncate 0 c3Session).history.length ≤ 0) ∧
    (mgrTruncate 0 c3Session).truncated_message_count = 1 := by decide

theorem mgrTruncate_history_pySlice (M : Nat) (s : Session)
    (h : M < s.history.length) :
    (mgrTruncate M s).history = pySliceLast s.history M := by
  unfold mgrTruncate Session.truncateHistory
  rw [if_neg (not_le.mpr h)]

/-- C3 (corrected): for every configured maximum `M ≥ 1` and every
sequence of `N > M` messages appended to a fresh session, a save leaves
`len(history) ≤ M` and `truncated_message_count = N - M`; a later save
after appending `K` further messages yields `(N + K) - M`, and the counter
is monotonically non-decreasing across any save. -/
theorem history_bound_invariant (M now : Nat) (base : Session)
    (items more : List (String × String))
    (hM : 1 ≤ M)
    (hbaseHist : base.history = [])
    (hbaseCount : base.truncated_message_count = 0)
    (hN : M < items.length) :
    (mgrTruncate M (appendMessages base now items)).history.length ≤ M ∧
    (mgrTruncate M (appendMessages base now items)).truncated_message_count
      = items.length - M ∧
    (mgrTruncate M (appendMessages
        (mgrTruncate M (appendMessages base now items)) now
        more)).truncated_message_count = (items.length + more.length) - M ∧
    ∀ t : Session, t.truncated_message_count ≤
      (mgrTruncate M t).truncated_message_count := by
  have hlen : (appendMessages base now items).history.length =
      items.length := by
    rw [appendMessages_history]
    simp [hbaseHist]
  have hcnt : (appendMessages base now items).truncated_message_count = 0 := by
    rw [appendMessages_count]
    exact hbaseCount
  have h1len : (mgrTruncate M (appendMessages base now items)).history.length
      = M := by
    rw [mgrTruncate_length _ _ hM, hlen]
    exact Nat.min_eq_right (Nat.le_of_lt hN)
  have h2 : (mgrTruncate M (appendMessages base now
      items)).truncated_message_count = items.length - M := by
    rw [mgrTruncate_count, hcnt, hlen]
    omega
  have hlen2 : (appendMessages
      (mgrTruncate M (appendMessages base now items)) now
      more).history.length = M + more.length := by
    rw [appendMessages_history]
    simp [h1len]
  have hcnt2 : (appendMessages
      (mgrTruncate M (appendMessages base now items)) now
      more).truncated_message_count = items.length - M := by
    rw [appendMessages_count]
    exact h2
  refine ⟨le_of_eq h1len, h2, ?_, ?_⟩
  · rw [mgrTruncate_count, hcnt2, hlen2]
    omega
  · intro t
    rw [mgrTruncate_count]
    exact Nat.le_add_right _ _

def c3Base : Session := createSession "c3b" 0 "Test Game"

/-- C3 witness: the invariant at `M = 1` with two then one appended
messages. -/
theorem history_bound_invariant_witness :
    (mgrTruncate 1 (appendMessages c3Base 0
      [("human", "a"), ("human", "b")])).history.length ≤ 1 ∧
    (mgrTruncate 1 (appendMessages c3Base 0
      [("human", "a"), ("human", "b")])).truncated_message_count = 1 ∧
    (mgrTruncate 1 (appendMessages
      (mgrTruncate 1 (appendMessages c3Base 0
        [("human", "a"), ("human", "b")])) 0
      [("human", "c")])).truncated_message_count = 2 ∧
    c3Session.truncated_message_count ≤
      (mgrTruncate 1 c3Session).truncated_message_count :=
  have h := history_bound_invariant 1 0 c3Base
    [("human", "a"), ("human", "b")] [("human", "c")]
    (by decide) rfl rfl (by decide)
  ⟨h.1, h.2.1, h.2.2.1, h.2.2.2 c3Session⟩

/-!
## C8 — save/load round trip
-/

/-- C8 (confirmed): `save(session)` followed by `load(session.id)` returns
exactly the session value that `save` produced, namely the pre-save session
after the truncation `save` performs: every field other than `history` and
`truncated_message_count` is preserved verbatim; with `len(history) ≤ M`
the loaded session equals the pre-save session outright, and otherwise the
history and counter differ exactly by the performed truncation. -/
theorem session_save_load_roundtrip (M : Nat) (store : SessionStore)
    (s : Session) :
    storeLoad (storeSave M store s).1 s.id = .ok ((storeSave M store s).2) ∧
    (storeSave M store s).2 = mgrTruncate M s ∧
    ((storeSave M store s).2.id = s.id ∧
     (storeSave M store s).2.created_at = s.created_at ∧
     (storeSave M store s).2.updated_at = s.updated_at ∧
     (storeSave M store s).2.project = s.project ∧
     (storeSave M store s).2.agent_contexts = s.agent_contexts) ∧
    (s.history.length ≤ M → (storeSave M store s).2 = s) ∧
    (M < s.history.length →
      (storeSave M store s).2.history = pySliceLast s.history M ∧
      (storeSave M store s).2.truncated_message_count =
        s.truncated_message_count + (s.history.length - M)) := by
  have hid : (mgrTruncate M s).id = s.id := (mgrTruncate_fixed_fields M s).1
  refine ⟨?_, rfl, ?_, ?_, ?_⟩
  · show storeLoad (storeSet store (mgrTruncate M s).id (mgrTruncate M s))
      s.id = _
    rw [hid]
    simp only [storeLoad, storeSet, List.lookup, beq_self_eq_true]
    rfl
  · exact mgrTruncate_fixed_fields M s
  · intro h
    exact mgrTruncate_of_le M s h
  · intro h
    exact ⟨mgrTruncate_history_pySlice M s h, mgrTruncate_count M s⟩

def c8Session : Session :=
  { id := "c8", project := { name := "Test Game" },
    history := [{ role := "human", content := "a" },
                { role := "agent", agent_name := some "designer",
                  content := "b" }],
    agent_contexts := [("designer", [("memo", "v")])] }

/-- C8 witness: the round trip at `M = 1` on a two-message session — the
load returns the saved document and the truncation accounting holds. -/
theorem session_save_load_roundtrip_witness :
    storeLoad (storeSave 1 [] c8Session).1 c8Session.id =
      .ok ((storeSave 1 [] c8Session).2) ∧
    (storeSave 1 [] c8Session).2.project = c8Session.project ∧
    (storeSave 1 [] c8Session).2.history = pySliceLast c8Session.history 1 ∧
    (storeSave 1 [] c8Session).2.truncated_message_count =
      c8Session.truncated_message_count + 1 :=
  have h := session_save_load_roundtrip 1 [] c8Session
  ⟨h.1, h.2.2.1.2.2.2.1, (h.2.2.2.2 (by decide)).1,
   ((h.2.2.2.2 (by decide)).2).trans (by decide)⟩

/-- C4 witness: with the echo agent seam, step 2's `qa` agent receives
exactly step 1's response content `out-designer`. -/
theorem pipeline_context_threading_witness :
    (runPipeline c4Env ⟨"feature", "", [c4Step1, c4Step2]⟩ c4Session
      "Add a dash move").state.calls =
      [("designer", "Add a dash move"), ("qa", "out-designer")] :=
  have h := pipeline_context_threading c4Env c4Step1 c4Step2 "feature" ""
    c4Session "Add a dash move" []
    (ctxSet [] "user_input" (.str "Add a dash move"))
    (stepOutputCtx c4Step1
      { content := "out-designer", agent_name := "designer", model := "m" }
      (ctxSet [] "user_input" (.str "Add a dash move")))
    TaskType.mechanic_design TaskType.review
    { content := "out-designer", agent_name := "designer", model := "m" }
    "design"
    (by decide) rfl rfl rfl (by decide) (by decide) (by decide) (by decide)
    rfl rfl (by decide) (by decide) (by decide) (by decide)
  h.trans (by decide)

end Gads
